import Mathlib

/-!
# Verification of the skel API middleware chain

A shallow embedding of the request-scoped middleware chain of the skel
JSON API (package `cmd/api` plus `internal/data`): error responses,
the per-IP rate limiter, bearer-token authentication, the layered
authorization chain, panic recovery, graceful-shutdown task tracking,
and stateful authentication-token generation.

Pure functions of the Go source are translated into Lean functions;
the mutable per-middleware state (the rate-limiter client registry) is
threaded explicitly; calls into external collaborators (the token
store, the permission store, `crypto/rand`, `crypto/sha256`,
`net.SplitHostPort`, the `golang.org/x/time/rate` limiter) are
parameters of the embedded functions, so each theorem quantifies over
the collaborator's possible answers.
-/

namespace Skel

/-! ## Error responses (`cmd/api/errors.go`)

Each helper of `errors.go` that the middleware chain calls is one
constructor; `status`, `message` and `setsWWWAuthenticateBearer`
record the HTTP status code, JSON error message and whether the helper
sets a `WWW-Authenticate: Bearer` challenge header, read off the body
of the corresponding Go helper. -/

inductive ErrResponse where
  | serverError
  | rateLimitExceeded
  | invalidAuthenticationToken
  | authenticationRequired
  | inactiveAccount
  | notPermitted
  deriving DecidableEq, Repr

/-- HTTP status code passed to `errorResponse` by each helper in
`cmd/api/errors.go`. -/
def ErrResponse.status : ErrResponse → Nat
  | .serverError => 500
  | .rateLimitExceeded => 429
  | .invalidAuthenticationToken => 401
  | .authenticationRequired => 401
  | .inactiveAccount => 403
  | .notPermitted => 403

/-- The generic message sent by `serverErrorResponse`
(`cmd/api/errors.go` line 45). -/
def serverErrorMessage : String :=
  "the server encountered a problem and could not process your request"

/-- Message string passed to `errorResponse` by each helper in
`cmd/api/errors.go`. -/
def ErrResponse.message : ErrResponse → String
  | .serverError => serverErrorMessage
  | .rateLimitExceeded => "rate limit exceeded"
  | .invalidAuthenticationToken => "invalid or missing authentication token"
  | .authenticationRequired => "you must be authenticated to access this resource"
  | .inactiveAccount => "your user account must be activated to access this resource"
  | .notPermitted =>
      "your user account doesn't have the necessary permissions to access this resource"

/-- Whether the helper sets the `WWW-Authenticate: Bearer` header
(`cmd/api/errors.go` lines 96 and 103). -/
def ErrResponse.setsWWWAuthenticateBearer : ErrResponse → Bool
  | .invalidAuthenticationToken => true
  | .authenticationRequired => true
  | _ => false

/-! ## Request identity (`internal/data` user type) -/

/-- The fields of `data.User` the middleware chain reads
(`internal/data/users.go`: `ID`, `Activated`). -/
structure User where
  id : Int
  activated : Bool
  deriving DecidableEq, Repr

/-- Modelled from the spec: the request identity is "either
`AnonymousUser` (sentinel, `IsAnonymous()==true`) or a concrete
`User{ID, activated: bool}`"; the `AnonymousUser` value and the
`IsAnonymous` method are declared in `internal/data` but their
definitions are not among the provided source files.  The anonymous
sentinel is a zero-valued user, so its `Activated` field is `false`
and its `ID` is `0`. -/
inductive Identity where
  | anonymous
  | user (u : User)
  deriving DecidableEq, Repr

def Identity.isAnonymous : Identity → Bool
  | .anonymous => true
  | .user _ => false

def Identity.activated : Identity → Bool
  | .anonymous => false
  | .user u => u.activated

def Identity.id : Identity → Int
  | .anonymous => 0
  | .user u => u.id

/-! ## Validator (`internal/validator`) -/

/-- Modelled from the spec: the `internal/validator` package is
referenced by the source but absent from the provided files.  A
validator accumulates keyed error messages; `Check` records the
message when the condition is false; `Valid` holds when no check
failed. -/
structure Validator where
  errors : List (String × String)
  deriving DecidableEq, Repr

def Validator.new : Validator := ⟨[]⟩

def Validator.check (v : Validator) (ok : Bool) (key message : String) : Validator :=
  if ok then v else ⟨v.errors ++ [(key, message)]⟩

def Validator.valid (v : Validator) : Bool := v.errors.isEmpty

/-! ## Token plaintext validation (`internal/data` tokens file) -/

/-- Go `len` of a string counts bytes, not runes. -/
def goLen (s : String) : Nat := s.utf8ByteSize

/-- Split a character list at every occurrence of `sep`, keeping empty
segments, as Go's `strings.Split` does for a single-character
separator. -/
def splitOnCharList (sep : Char) : List Char → List (List Char)
  | [] => [[]]
  | c :: rest =>
    if c == sep then [] :: splitOnCharList sep rest
    else
      match splitOnCharList sep rest with
      | [] => [[c]]
      | g :: gs => (c :: g) :: gs

/-- Embedding of `strings.Split(s, " ")`: split on every single space
character, keeping empty parts (`Split("", " ")` is `[""]`,
`Split("a  b", " ")` is `["a", "", "b"]`). -/
def goSplitSpace (s : String) : List String :=
  (splitOnCharList ' ' s.data).map String.mk

/-- `ValidateTokenPlaintext` checks that the plaintext token is
non-empty and exactly 26 bytes long. -/
def ValidateTokenPlaintext (v : Validator) (tokenPlaintext : String) : Validator :=
  (v.check (tokenPlaintext != "") "token" "must be provided").check
    (goLen tokenPlaintext == 26) "token" "must be 26 bytes long"

/-! ## The authenticate middleware (`cmd/api/middleware.go` lines 159-228) -/

/-- Modelled from the spec: outcome of `Users.GetForToken(ScopeAuthentication, token)`.
Only the interface declaration and callers of `GetForToken` are among
the provided files; per the spec it returns the owning user when a
non-expired row with authentication scope matches the token's hash,
`ErrRecordNotFound` when no such row matches (wrong hash, wrong scope,
or expired), and a distinct store error on I/O failure or timeout. -/
inductive TokenLookup where
  | found (u : User)
  | recordNotFound
  | storeError
  deriving DecidableEq, Repr

/-- Observable outcome of one run of the `authenticate` middleware:
the `Vary: Authorization` header, the error helper invoked (if any),
the identity attached to the request context (if any), whether
`GetForToken` was called, and whether the next handler ran. -/
structure AuthResult where
  varyAuthorization : Bool
  errorResponse : Option ErrResponse
  identity : Option Identity
  getForTokenCalled : Bool
  nextCalled : Bool
  deriving DecidableEq, Repr

/-- The `authenticate` middleware body, with the token store passed in
as the function `getForToken` (the outcome of
`Users.GetForToken(ScopeAuthentication, ·)`). -/
def authenticate (getForToken : String → TokenLookup)
    (authorizationHeader : String) : AuthResult :=
  -- w.Header().Add("Vary", "Authorization") happens before any branch,
  -- so varyAuthorization is true in every outcome below.
  if authorizationHeader == "" then
    { varyAuthorization := true, errorResponse := none,
      identity := some .anonymous, getForTokenCalled := false, nextCalled := true }
  else
    let headerParts := goSplitSpace authorizationHeader
    if headerParts.length != 2 || headerParts.getD 0 "" != "Bearer" then
      { varyAuthorization := true, errorResponse := some .invalidAuthenticationToken,
        identity := none, getForTokenCalled := false, nextCalled := false }
    else
      let token := headerParts.getD 1 ""
      let v := ValidateTokenPlaintext Validator.new token
      if !v.valid then
        { varyAuthorization := true, errorResponse := some .invalidAuthenticationToken,
          identity := none, getForTokenCalled := false, nextCalled := false }
      else
        match getForToken token with
        | .recordNotFound =>
            { varyAuthorization := true, errorResponse := some .invalidAuthenticationToken,
              identity := none, getForTokenCalled := true, nextCalled := false }
        | .storeError =>
            { varyAuthorization := true, errorResponse := some .serverError,
              identity := none, getForTokenCalled := true, nextCalled := false }
        | .found u =>
            { varyAuthorization := true, errorResponse := none,
              identity := some (.user u), getForTokenCalled := true, nextCalled := true }

/-! ## The authorization chain (`cmd/api/middleware.go` lines 230-287,
`src/unnamed/part_012` lines 292-326) -/

/-- `data.Permissions` is a slice of permission codes
(`internal/data/permissions.go`). -/
abbrev Permissions : Type := List String

/-- `Permissions.Include` scans the slice for an exact match. -/
def Permissions.Include (p : Permissions) (code : String) : Bool :=
  match p with
  | [] => false
  | c :: rest => if code == c then true else Permissions.Include rest code

/-- Outcome of `Permissions.GetAllForUser(userID)` at the permission
store boundary. -/
inductive PermLookup where
  | ok (permissions : Permissions)
  | err
  deriving DecidableEq, Repr

/-- Request context seen by the authorization chain: the identity
attached by `authenticate` (via `contextGetUser`) plus the permission
store collaborator. -/
structure AuthzCtx where
  user : Identity
  getAllForUser : Int → PermLookup

/-- Observable outcome of a run through the authorization chain. -/
structure AuthzResult where
  errorResponse : Option ErrResponse
  permStoreCalled : Bool
  nextCalled : Bool
  deriving DecidableEq, Repr

/-- `requireAuthenticatedUser`: reject anonymous identities with
`authenticationRequiredResponse`, else run the wrapped handler. -/
def requireAuthenticatedUser (next : AuthzCtx → AuthzResult) (ctx : AuthzCtx) : AuthzResult :=
  if ctx.user.isAnonymous then
    { errorResponse := some .authenticationRequired, permStoreCalled := false, nextCalled := false }
  else next ctx

/-- `requireActivatedUser`: check the `Activated` flag, and wrap the
whole check in `requireAuthenticatedUser` (exactly as the source wraps
`fn`). -/
def requireActivatedUser (next : AuthzCtx → AuthzResult) : AuthzCtx → AuthzResult :=
  let fn := fun ctx =>
    if !ctx.user.activated then
      { errorResponse := some .inactiveAccount, permStoreCalled := false, nextCalled := false }
    else next ctx
  requireAuthenticatedUser fn

/-- `requirePermission code`: fetch the user's permission set, 500 on
store error, 403 `notPermittedResponse` when `code` is missing, else
run the wrapped handler; the whole check is wrapped in
`requireActivatedUser` (exactly as the source wraps `fn`). -/
def requirePermission (code : String) (next : AuthzCtx → AuthzResult) : AuthzCtx → AuthzResult :=
  let fn := fun ctx =>
    match ctx.getAllForUser ctx.user.id with
    | .err =>
        { errorResponse := some .serverError, permStoreCalled := true, nextCalled := false }
    | .ok permissions =>
        if !(Permissions.Include permissions code) then
          { errorResponse := some .notPermitted, permStoreCalled := true, nextCalled := false }
        else
          let r := next ctx
          { r with permStoreCalled := true }
  requireActivatedUser fn

/-! ## The rateLimit middleware (`cmd/api/middleware.go` lines 52-155)

Time is measured in seconds as a rational number.  The registry
(`clients` map) is an association list from client IP to a client
entry; the background sweep and the per-request closure are embedded
as explicit state-passing functions over it. -/

/-- Modelled from the spec: the token-bucket limiter of
`golang.org/x/time/rate` (an external collaborator): "a rate-limiting
algorithm holding a capped pool of tokens refilled at a fixed rate;
each permitted action consumes one".  `tokens` is the pool at time
`last`; `allow` refills for the elapsed time (capped at the burst
size), then consumes one token when available. -/
structure Limiter where
  tokens : ℚ
  last : ℚ
  deriving DecidableEq, Repr

/-- `rate.NewLimiter(rps, burst)` at creation time `now`: the bucket
starts full. -/
def Limiter.new (burst : ℚ) (now : ℚ) : Limiter := ⟨burst, now⟩

/-- `limiter.Allow()` at time `now`: refill at `rps` tokens/second up
to `burst`, then consume one token if at least one is available,
returning whether it was. -/
def Limiter.allow (l : Limiter) (now rps burst : ℚ) : Bool × Limiter :=
  let tokens := min burst (l.tokens + (now - l.last) * rps)
  if 1 ≤ tokens then (true, ⟨tokens - 1, now⟩) else (false, ⟨tokens, now⟩)

/-- The per-client entry of the `clients` map (`middleware.go` lines
55-58): a limiter and a last-seen time. -/
structure Client where
  limiter : Limiter
  lastSeen : ℚ
  deriving DecidableEq, Repr

/-- The `clients` map as an association list keyed by client IP. -/
abbrev Registry : Type := List (String × Client)

/-- Map lookup `clients[ip]`. -/
def Registry.find : Registry → String → Option Client
  | [], _ => none
  | (k, c) :: rest, ip => if k == ip then some c else Registry.find rest ip

/-- Map assignment `clients[ip] = c`: replace the entry if present,
append it otherwise. -/
def Registry.set : Registry → String → Client → Registry
  | [], ip, c => [(ip, c)]
  | (k, c0) :: rest, ip, c =>
    if k == ip then (ip, c) :: rest else (k, c0) :: Registry.set rest ip c

/-- The rate-limiter configuration surface (`cmd/api/main.go`
`config.limiter`): requests per second, burst size, enabled flag. -/
structure LimiterConfig where
  rps : ℚ
  burst : ℚ
  enabled : Bool
  deriving DecidableEq, Repr

/-- Observable outcome of one run of the `rateLimit` per-request
closure. -/
structure RateLimitResult where
  errorResponse : Option ErrResponse
  nextCalled : Bool
  deriving DecidableEq, Repr

/-- One run of the closure returned by `rateLimit`
(`cmd/api/middleware.go` lines 95-154).  `splitHostPort` is the
outcome of `net.SplitHostPort(r.RemoteAddr)` (the extracted host on
success, `none` on error).  When the limiter is enabled: a split
failure answers `serverErrorResponse` and returns; otherwise the
entry for the IP is created if absent (a fresh limiter, zero-valued
`lastSeen`), `lastSeen` is set to `now`, `Allow()` is consulted, and a
denial answers `rateLimitExceededResponse`; only an allowed request
reaches the next handler.  When disabled, the whole block is skipped. -/
def rateLimitStep (cfg : LimiterConfig) (splitHostPort : Option String)
    (now : ℚ) (clients : Registry) : RateLimitResult × Registry :=
  if cfg.enabled then
    match splitHostPort with
    | none => ({ errorResponse := some .serverError, nextCalled := false }, clients)
    | some ip =>
      let entry :=
        match clients.find ip with
        | none => { limiter := Limiter.new cfg.burst now, lastSeen := 0 : Client }
        | some c => c
      let entry := { entry with lastSeen := now }
      let res := entry.limiter.allow now cfg.rps cfg.burst
      let clients := clients.set ip { entry with limiter := res.2 }
      if !res.1 then
        ({ errorResponse := some .rateLimitExceeded, nextCalled := false }, clients)
      else
        ({ errorResponse := none, nextCalled := true }, clients)
  else
    ({ errorResponse := none, nextCalled := true }, clients)

/-- One pass of the background cleanup goroutine (`cmd/api/middleware.go`
lines 72-91), which runs once per minute: delete every entry whose
`lastSeen` lies more than three minutes (180 seconds) in the past. -/
def sweepClients (clients : Registry) (now : ℚ) : Registry :=
  clients.filter (fun p => !(now - p.2.lastSeen > 180))

/-- The limiter the `rateLimit` closure consults for `ip` at time
`now`: the registered one, or a fresh full bucket when the IP has no
entry yet. -/
def currentLimiter (clients : Registry) (ip : String) (cfg : LimiterConfig) (now : ℚ) :
    Limiter :=
  match clients.find ip with
  | none => Limiter.new cfg.burst now
  | some c => c.limiter

/-! ## Panic recovery (`cmd/api/middleware.go` lines 17-41,
`cmd/api/errors.go` lines 11-47)

The response writer is modelled by the headers set, the
`(status, body)` writes performed, and the server-side error log. -/

structure ResponseState where
  headers : List (String × String)
  writes : List (Nat × String)
  logged : List String
  deriving DecidableEq, Repr

def ResponseState.initial : ResponseState := ⟨[], [], []⟩

/-- `logError` records the error server-side only. -/
def logError (st : ResponseState) (err : String) : ResponseState :=
  { st with logged := st.logged ++ [err] }

/-- `errorResponse` writes one response with the given status and
message. -/
def errorResponse (st : ResponseState) (status : Nat) (message : String) : ResponseState :=
  { st with writes := st.writes ++ [(status, message)] }

/-- `serverErrorResponse` logs the detailed error, then sends a 500
with the fixed generic message. -/
def serverErrorResponse (st : ResponseState) (err : String) : ResponseState :=
  errorResponse (logError st err) 500 serverErrorMessage

/-- How the wrapped handler's execution ends: normally, or by raising
a panic carrying `details` (the value `recover()` returns, normalized
by `fmt.Errorf("%s", err)`). -/
inductive HandlerRun where
  | completes
  | panics (details : String)
  deriving DecidableEq, Repr

/-- The `recoverPanic` middleware: the deferred `recover()` notices a
panic, sets the `Connection: close` header, and calls
`serverErrorResponse` with the normalized panic value; the panic never
propagates, so the process does not crash (second component).  A
normal run passes the state through. -/
def recoverPanic (run : HandlerRun) (st : ResponseState) : ResponseState × Bool :=
  match run with
  | .completes => (st, false)
  | .panics details =>
    let st := { st with headers := st.headers ++ [("Connection", "close")] }
    (serverErrorResponse st details, false)

/-! ## Background-task tracking (`src/unnamed/part_009` lines 72-90,
`src/unnamed/part_019` lines 182-194) -/

/-- Operations on a `sync.WaitGroup` counter. -/
inductive WgOp where
  | add (n : Nat)
  | done
  deriving DecidableEq, Repr

/-- The counter after running a sequence of WaitGroup operations from
zero; `Wait()` blocks exactly while this is non-zero. -/
def wgCounter (ops : List WgOp) : Int :=
  ops.foldl (fun c op => match op with | .add n => c + n | .done => c - 1) 0

/-- The operations performed on the shared `app.wg` WaitGroup by
`registerUserHandler` when it spawns the welcome-email goroutine
(`src/unnamed/part_009` lines 72-90): the goroutine is launched with a
bare `go` statement — no `Add` before the spawn and no `Done` inside
the goroutine. -/
def welcomeEmailWgOps : List WgOp := []

/-- Whether `app.wg.Wait()` — called by `serve`'s shutdown goroutine
after the 5-second request drain (`src/unnamed/part_019` line 192) —
blocks, given the operations the handlers performed on the counter. -/
def wgWaitBlocks (ops : List WgOp) : Bool := wgCounter ops != 0

/-! ## Token generation (`src/unnamed/part_000`) -/

/-- The standard base-32 alphabet used by `encoding/base32.StdEncoding`. -/
def base32StdAlphabet : List Char :=
  ['A', 'B', 'C', 'D', 'E', 'F', 'G', 'H', 'I', 'J', 'K', 'L', 'M',
   'N', 'O', 'P', 'Q', 'R', 'S', 'T', 'U', 'V', 'W', 'X', 'Y', 'Z',
   '2', '3', '4', '5', '6', '7']

def bitVal (b : Bool) : Nat := if b then 1 else 0

/-- The eight bits of a byte, most significant first. -/
def byteToBits (b : Nat) : List Bool :=
  [b.testBit 7, b.testBit 6, b.testBit 5, b.testBit 4,
   b.testBit 3, b.testBit 2, b.testBit 1, b.testBit 0]

/-- Value of one 5-bit base-32 group, big-endian; a final group
shorter than five bits is padded on the right with zero bits, as the
encoder does. -/
def chunkVal (bits : List Bool) : Nat :=
  16 * bitVal (bits.getD 0 false) + 8 * bitVal (bits.getD 1 false) +
    4 * bitVal (bits.getD 2 false) + 2 * bitVal (bits.getD 3 false) +
    bitVal (bits.getD 4 false)

/-- Split a bit stream into consecutive 5-bit group values. -/
def bitsToChunks : List Bool → List Nat
  | [] => []
  | b0 :: b1 :: b2 :: b3 :: b4 :: rest => chunkVal [b0, b1, b2, b3, b4] :: bitsToChunks rest
  | bits => [chunkVal bits]

/-- `base32.StdEncoding.WithPadding(base32.NoPadding).EncodeToString`:
the input bytes as a bit stream, in 5-bit groups mapped through the
standard alphabet, with no padding characters. -/
def base32EncodeNoPadding (data : List Nat) : String :=
  String.mk ((bitsToChunks (data.map byteToBits).flatten).map
    (fun n => base32StdAlphabet.getD n 'A'))

/-- The token scope constants. -/
def ScopeActivation : String := "activation"

def ScopeAuthentication : String := "authentication"

def ScopePasswordReset : String := "password-reset"

/-- `data.Token`: plaintext and hashed versions, owning user, expiry
and scope.  The hash is a byte list. -/
structure Token where
  plaintext : String
  hash : List Nat
  userID : Int
  expiry : ℚ
  scope : String
  deriving DecidableEq, Repr

/-- `generateToken(userID, ttl, scope)`: build the token with
`Expiry = now + ttl`, fill a 16-byte slice from the CSPRNG (`randRead`
is the outcome of `crypto/rand.Read`; `none` is a CSPRNG failure and
propagates as an error), base-32-encode it into `Plaintext`, and store
`hashFn Plaintext` — `hashFn` standing for the external
`crypto/sha256.Sum256` — in `Hash`. -/
def generateToken (hashFn : String → List Nat) (now : ℚ)
    (userID : Int) (ttl : ℚ) (scope : String)
    (randRead : Option (List Nat)) : Option Token :=
  match randRead with
  | none => none
  | some randomBytes =>
    let plaintext := base32EncodeNoPadding randomBytes
    some { plaintext := plaintext, hash := hashFn plaintext,
           userID := userID, expiry := now + ttl, scope := scope }

/-- A value bound to a placeholder of the `INSERT INTO tokens` query. -/
inductive SQLValue where
  | bytes (b : List Nat)
  | int (i : Int)
  | time (t : ℚ)
  | str (s : String)
  deriving DecidableEq, Repr

/-- The `args` slice `TokenModel.Insert` binds to
`INSERT INTO tokens (hash, user_id, expiry, scope)`:
`token.Hash, token.UserID, token.Expiry, token.Scope`
(`src/unnamed/part_000` line 107). -/
def insertTokenArgs (t : Token) : List SQLValue :=
  [.bytes t.hash, .int t.userID, .time t.expiry, .str t.scope]

end Skel

namespace Skel

/-! ## Theorems: authentication and authorization claims -/

/-- **C4.** A request with no `Authorization` header resolves to the
anonymous identity: `authenticate` attaches `AnonymousUser`, calls the
next handler, writes no error response, and never consults the token
store. -/
theorem authenticate_no_header_anonymous (getForToken : String → TokenLookup) :
    authenticate getForToken "" =
      { varyAuthorization := true, errorResponse := none,
        identity := some .anonymous, getForTokenCalled := false, nextCalled := true } := by
  rfl

/-- `ValidateTokenPlaintext` on a fresh validator succeeds exactly for
a non-empty 26-byte token. -/
theorem validateTokenPlaintext_valid (t : String) :
    (ValidateTokenPlaintext Validator.new t).valid = (t != "" && goLen t == 26) := by
  by_cases h1 : t = ""
  · subst h1
    simp [ValidateTokenPlaintext, Validator.new, Validator.check, Validator.valid,
      show goLen "" = 0 from rfl]
  · by_cases h2 : goLen t = 26 <;>
      simp [ValidateTokenPlaintext, Validator.new, Validator.check, Validator.valid, h1, h2]

/-- **C2.** A present-but-malformed `Authorization` header (not exactly
two space-separated parts with the first being literally `Bearer`), or
a well-formed header whose bearer token is empty or not exactly 26
bytes long, makes `authenticate` answer with
`invalidAuthenticationTokenResponse` — status 401 and a
`WWW-Authenticate: Bearer` challenge — halt processing, and skip the
`GetForToken` store lookup; the two failure modes produce identical
outcomes. -/
theorem authenticate_rejects_malformed_before_store
    (getForToken : String → TokenLookup) (hdr : String)
    (hne : hdr ≠ "")
    (hbad : (goSplitSpace hdr).length ≠ 2 ∨ (goSplitSpace hdr).getD 0 "" ≠ "Bearer"
      ∨ (goSplitSpace hdr).getD 1 "" = "" ∨ goLen ((goSplitSpace hdr).getD 1 "") ≠ 26) :
    authenticate getForToken hdr =
      { varyAuthorization := true, errorResponse := some .invalidAuthenticationToken,
        identity := none, getForTokenCalled := false, nextCalled := false } ∧
    ErrResponse.status .invalidAuthenticationToken = 401 ∧
    ErrResponse.setsWWWAuthenticateBearer .invalidAuthenticationToken = true := by
  refine ⟨?_, rfl, rfl⟩
  rcases hsplit : goSplitSpace hdr with _ | ⟨p0, _ | ⟨p1, _ | ⟨p2, rest⟩⟩⟩
  · simp [authenticate, hsplit, hne]
  · simp [authenticate, hsplit, hne]
  · rw [hsplit] at hbad
    by_cases hb : p0 = "Bearer"
    · subst hb
      have htok : p1 = "" ∨ goLen p1 ≠ 26 := by
        rcases hbad with h | h | h | h
        · exact absurd rfl h
        · exact absurd rfl h
        · exact Or.inl h
        · exact Or.inr h
      have hinvalid : (ValidateTokenPlaintext Validator.new p1).valid = false := by
        rw [validateTokenPlaintext_valid]
        rcases htok with h | h <;> simp [h]
      simp [authenticate, hsplit, hne, hinvalid]
    · simp [authenticate, hsplit, hne, hb]
  · simp [authenticate, hsplit, hne]

/-- Witness for `authenticate_rejects_malformed_before_store` at the
concrete header `"Token abc"` (first part not `Bearer`). -/
theorem authenticate_rejects_malformed_before_store_witness :
    authenticate (fun _ => TokenLookup.storeError) "Token abc" =
      { varyAuthorization := true, errorResponse := some .invalidAuthenticationToken,
        identity := none, getForTokenCalled := false, nextCalled := false } ∧
    ErrResponse.status .invalidAuthenticationToken = 401 ∧
    ErrResponse.setsWWWAuthenticateBearer .invalidAuthenticationToken = true :=
  authenticate_rejects_malformed_before_store (fun _ => TokenLookup.storeError) "Token abc"
    (by decide) (by right; left; decide)

/-- **C3.** For a well-formed header with a shape-valid token, the
store lookup runs, and a lookup failure maps to 401 exactly when it is
`ErrRecordNotFound`; every other store error (timeouts included) maps
to `serverErrorResponse`, status 500 — never to the invalid-token
response. -/
theorem authenticate_store_failure_mapping
    (getForToken : String → TokenLookup) (hdr t : String)
    (hsplit : goSplitSpace hdr = ["Bearer", t])
    (hne : t ≠ "") (hlen : goLen t = 26) :
    hdr ≠ "" ∧
    (getForToken t = .recordNotFound →
      authenticate getForToken hdr =
        { varyAuthorization := true, errorResponse := some .invalidAuthenticationToken,
          identity := none, getForTokenCalled := true, nextCalled := false }) ∧
    (getForToken t = .storeError →
      authenticate getForToken hdr =
        { varyAuthorization := true, errorResponse := some .serverError,
          identity := none, getForTokenCalled := true, nextCalled := false }) ∧
    ErrResponse.status .invalidAuthenticationToken = 401 ∧
    ErrResponse.status .serverError = 500 := by
  have hdrne : hdr ≠ "" := by
    intro h
    rw [h, show goSplitSpace "" = [""] from rfl] at hsplit
    injection hsplit with h1 h2
    exact absurd h1 (by decide)
  have hvalid : (ValidateTokenPlaintext Validator.new t).valid = true := by
    rw [validateTokenPlaintext_valid]
    simp [hne, hlen]
  refine ⟨hdrne, ?_, ?_, rfl, rfl⟩ <;>
    · intro hstore
      simp [authenticate, hsplit, hdrne, hvalid, hstore]

/-- Witness for `authenticate_store_failure_mapping` at the concrete
header `"Bearer ABCDEFGHIJKLMNOPQRSTUVWXYZ"` with a store that always
reports a record-not-found outcome. -/
theorem authenticate_store_failure_mapping_witness :
    (fun _ => TokenLookup.recordNotFound) "ABCDEFGHIJKLMNOPQRSTUVWXYZ" = .recordNotFound ∧
    authenticate (fun _ => TokenLookup.recordNotFound) "Bearer ABCDEFGHIJKLMNOPQRSTUVWXYZ" =
      { varyAuthorization := true, errorResponse := some .invalidAuthenticationToken,
        identity := none, getForTokenCalled := true, nextCalled := false } :=
  ⟨rfl,
    (authenticate_store_failure_mapping (fun _ => TokenLookup.recordNotFound)
      "Bearer ABCDEFGHIJKLMNOPQRSTUVWXYZ" "ABCDEFGHIJKLMNOPQRSTUVWXYZ"
      (by decide) (by decide) (by decide)).2.1 rfl⟩

/-- **C1.** The authorization chain is strictly layered:
`requirePermission code` wraps `requireActivatedUser`, which wraps
`requireAuthenticatedUser`.  For any wrapped handler: an anonymous
identity gets 401 with no permission lookup; a non-activated
authenticated identity gets 403 with no permission lookup; for an
activated identity a permission-store error gets 500, a missing
permission code gets 403, and only a present code reaches the handler
(after exactly one permission lookup). -/
theorem requirePermission_layered
    (code : String) (next : AuthzCtx → AuthzResult) (ctx : AuthzCtx) :
    (ctx.user.isAnonymous = true →
      requirePermission code next ctx =
        { errorResponse := some .authenticationRequired,
          permStoreCalled := false, nextCalled := false }) ∧
    (ctx.user.isAnonymous = false → ctx.user.activated = false →
      requirePermission code next ctx =
        { errorResponse := some .inactiveAccount,
          permStoreCalled := false, nextCalled := false }) ∧
    (ctx.user.isAnonymous = false → ctx.user.activated = true →
      ctx.getAllForUser ctx.user.id = .err →
      requirePermission code next ctx =
        { errorResponse := some .serverError,
          permStoreCalled := true, nextCalled := false }) ∧
    (∀ permissions, ctx.user.isAnonymous = false → ctx.user.activated = true →
      ctx.getAllForUser ctx.user.id = .ok permissions →
      Permissions.Include permissions code = false →
      requirePermission code next ctx =
        { errorResponse := some .notPermitted,
          permStoreCalled := true, nextCalled := false }) ∧
    (∀ permissions, ctx.user.isAnonymous = false → ctx.user.activated = true →
      ctx.getAllForUser ctx.user.id = .ok permissions →
      Permissions.Include permissions code = true →
      requirePermission code next ctx = { next ctx with permStoreCalled := true }) ∧
    ErrResponse.status .authenticationRequired = 401 ∧
    ErrResponse.status .inactiveAccount = 403 ∧
    ErrResponse.status .serverError = 500 ∧
    ErrResponse.status .notPermitted = 403 := by
  refine ⟨?_, ?_, ?_, ?_, ?_, rfl, rfl, rfl, rfl⟩
  · intro hanon
    simp [requirePermission, requireActivatedUser, requireAuthenticatedUser, hanon]
  · intro hanon hact
    simp [requirePermission, requireActivatedUser, requireAuthenticatedUser, hanon, hact]
  · intro hanon hact hstore
    simp [requirePermission, requireActivatedUser, requireAuthenticatedUser, hanon, hact, hstore]
  · intro permissions hanon hact hstore hmiss
    simp [requirePermission, requireActivatedUser, requireAuthenticatedUser,
      hanon, hact, hstore, hmiss]
  · intro permissions hanon hact hstore hhit
    simp [requirePermission, requireActivatedUser, requireAuthenticatedUser,
      hanon, hact, hstore, hhit]

/-- Witness for `requirePermission_layered`: three concrete contexts
(anonymous; authenticated but not activated; activated with permission
set `["movies:read"]`) run against the chain guarding
`"movies:write"`. -/
theorem requirePermission_layered_witness :
    (requirePermission "movies:write" (fun _ => ⟨none, false, true⟩)
        ⟨.anonymous, fun _ => .ok ["movies:read"]⟩ =
      { errorResponse := some .authenticationRequired,
        permStoreCalled := false, nextCalled := false }) ∧
    (requirePermission "movies:write" (fun _ => ⟨none, false, true⟩)
        ⟨.user ⟨7, false⟩, fun _ => .ok ["movies:read"]⟩ =
      { errorResponse := some .inactiveAccount,
        permStoreCalled := false, nextCalled := false }) ∧
    (requirePermission "movies:write" (fun _ => ⟨none, false, true⟩)
        ⟨.user ⟨7, true⟩, fun _ => .ok ["movies:read"]⟩ =
      { errorResponse := some .notPermitted,
        permStoreCalled := true, nextCalled := false }) ∧
    (requirePermission "movies:write" (fun _ => ⟨none, false, true⟩)
        ⟨.user ⟨7, true⟩, fun _ => .ok ["movies:read", "movies:write"]⟩ =
      { errorResponse := none, permStoreCalled := true, nextCalled := true }) :=
  ⟨(requirePermission_layered "movies:write" (fun _ => ⟨none, false, true⟩)
      ⟨.anonymous, fun _ => .ok ["movies:read"]⟩).1 rfl,
   (requirePermission_layered "movies:write" (fun _ => ⟨none, false, true⟩)
      ⟨.user ⟨7, false⟩, fun _ => .ok ["movies:read"]⟩).2.1 rfl rfl,
   (requirePermission_layered "movies:write" (fun _ => ⟨none, false, true⟩)
      ⟨.user ⟨7, true⟩, fun _ => .ok ["movies:read"]⟩).2.2.2.1
      ["movies:read"] rfl rfl rfl (by decide),
   (requirePermission_layered "movies:write" (fun _ => ⟨none, false, true⟩)
      ⟨.user ⟨7, true⟩, fun _ => .ok ["movies:read", "movies:write"]⟩).2.2.2.2.1
      ["movies:read", "movies:write"] rfl rfl rfl (by decide)⟩

/-! ## Theorems: rate-limiter claims -/

/-- Assigning an entry and looking the same IP up finds exactly that
entry. -/
theorem Registry.find_set_self (reg : Registry) (ip : String) (c : Client) :
    (reg.set ip c).find ip = some c := by
  induction reg with
  | nil => simp [Registry.set, Registry.find]
  | cons hd tl ih =>
    obtain ⟨k, c0⟩ := hd
    by_cases h : k = ip <;> simp [Registry.set, Registry.find, h, ih]

/-- **C5.** When rate limiting is enabled and the bucket for the
request's IP has no token (`Allow()` is false), the middleware answers
`rateLimitExceededResponse` (429) and the next handler does not run;
when the limiter is disabled by configuration, every request — whatever
the remote address parses to — bypasses the limiter entirely: the
registry is untouched, no error is written, and the next handler runs. -/
theorem rateLimit_deny_and_disabled_bypass
    (cfg : LimiterConfig) (ip : String) (addr : Option String)
    (now : ℚ) (clients : Registry) :
    (cfg.enabled = true →
      ((currentLimiter clients ip cfg now).allow now cfg.rps cfg.burst).1 = false →
      (rateLimitStep cfg (some ip) now clients).1 =
        { errorResponse := some .rateLimitExceeded, nextCalled := false }) ∧
    (cfg.enabled = false →
      rateLimitStep cfg addr now clients =
        ({ errorResponse := none, nextCalled := true }, clients)) ∧
    ErrResponse.status .rateLimitExceeded = 429 := by
  refine ⟨?_, ?_, rfl⟩
  · intro hen hdeny
    unfold rateLimitStep
    cases hfind : clients.find ip with
    | none =>
      rw [currentLimiter, hfind] at hdeny
      simp only [hen, if_true, hfind]
      simp [hdeny]
    | some c =>
      rw [currentLimiter, hfind] at hdeny
      simp only [hen, if_true, hfind]
      simp [hdeny]
  · intro hdis
    unfold rateLimitStep
    simp [hdis]

/-- Witness for `rateLimit_deny_and_disabled_bypass`: an enabled
limiter whose registered bucket for `10.0.0.1` is empty denies the
request, and a disabled limiter passes a request with an unparsable
remote address straight through. -/
theorem rateLimit_deny_and_disabled_bypass_witness :
    ((rateLimitStep ⟨2, 4, true⟩ (some "10.0.0.1") 0
        [("10.0.0.1", ⟨⟨0, 0⟩, 0⟩)]).1 =
      { errorResponse := some .rateLimitExceeded, nextCalled := false }) ∧
    (rateLimitStep ⟨2, 4, false⟩ none 0 [("10.0.0.1", ⟨⟨0, 0⟩, 0⟩)] =
      ({ errorResponse := none, nextCalled := true }, [("10.0.0.1", ⟨⟨0, 0⟩, 0⟩)])) :=
  ⟨(rateLimit_deny_and_disabled_bypass ⟨2, 4, true⟩ "10.0.0.1" none 0
      [("10.0.0.1", ⟨⟨0, 0⟩, 0⟩)]).1 rfl
      (by norm_num [currentLimiter, Registry.find, Limiter.allow]),
   (rateLimit_deny_and_disabled_bypass ⟨2, 4, false⟩ "10.0.0.1" none 0
      [("10.0.0.1", ⟨⟨0, 0⟩, 0⟩)]).2.1 rfl⟩

/-- **C6.** The sweep keeps exactly the entries seen within the last
three minutes: an entry is retained iff `now - lastSeen ≤ 180` seconds
(evicted iff more than 3 minutes stale); every enabled-path request —
allowed or denied — stamps the IP's entry with `lastSeen = now`; hence
an entry whose `lastSeen` is within the last 3 minutes survives any
sweep. -/
theorem sweep_evicts_exactly_stale
    (clients : Registry) (now : ℚ) (ip : String) (c : Client)
    (cfg : LimiterConfig) :
    ((ip, c) ∈ clients → ((ip, c) ∈ sweepClients clients now ↔ now - c.lastSeen ≤ 180)) ∧
    (cfg.enabled = true →
      ((rateLimitStep cfg (some ip) now clients).2.find ip).map Client.lastSeen = some now) ∧
    ((ip, c) ∈ clients → now - c.lastSeen ≤ 180 → (ip, c) ∈ sweepClients clients now) := by
  have hmem : (ip, c) ∈ clients → ((ip, c) ∈ sweepClients clients now ↔ now - c.lastSeen ≤ 180) := by
    intro hin
    simp only [sweepClients, List.mem_filter]
    constructor
    · rintro ⟨-, hkeep⟩
      simpa [not_lt] using hkeep
    · intro hfresh
      exact ⟨hin, by simpa [not_lt] using hfresh⟩
  refine ⟨hmem, ?_, fun hin hfresh => (hmem hin).mpr hfresh⟩
  intro hen
  unfold rateLimitStep
  cases hfind : clients.find ip with
  | none =>
    simp only [hen, if_true, hfind]
    by_cases hallow :
        ((Limiter.new cfg.burst now).allow now cfg.rps cfg.burst).1 = true <;>
      simp [hallow, Registry.find_set_self]
  | some c0 =>
    simp only [hen, if_true, hfind]
    by_cases hallow :
        (({ c0 with lastSeen := now } : Client).limiter.allow now cfg.rps cfg.burst).1 = true <;>
      simp [hallow, Registry.find_set_self]

/-- Witness for `sweep_evicts_exactly_stale`: an entry last seen 181
seconds ago is evicted, one last seen 100 seconds ago is kept, and an
enabled-path request stamps `lastSeen` with the current time. -/
theorem sweep_evicts_exactly_stale_witness :
    (("10.0.0.1", (⟨⟨4, 0⟩, 0⟩ : Client)) ∈
        sweepClients [("10.0.0.1", ⟨⟨4, 0⟩, 0⟩)] 181 ↔ (181 : ℚ) - 0 ≤ 180) ∧
    (("10.0.0.2", (⟨⟨4, 0⟩, 100⟩ : Client)) ∈
        sweepClients [("10.0.0.2", ⟨⟨4, 0⟩, 100⟩)] 181) ∧
    (((rateLimitStep ⟨2, 4, true⟩ (some "10.0.0.1") 7
        [("10.0.0.1", ⟨⟨4, 0⟩, 0⟩)]).2.find "10.0.0.1").map Client.lastSeen = some 7) :=
  ⟨(sweep_evicts_exactly_stale [("10.0.0.1", ⟨⟨4, 0⟩, 0⟩)] 181 "10.0.0.1"
      ⟨⟨4, 0⟩, 0⟩ ⟨2, 4, true⟩).1 (by decide),
   (sweep_evicts_exactly_stale [("10.0.0.2", ⟨⟨4, 0⟩, 100⟩)] 181 "10.0.0.2"
      ⟨⟨4, 0⟩, 100⟩ ⟨2, 4, true⟩).2.2 (by decide) (by norm_num),
   (sweep_evicts_exactly_stale [("10.0.0.1", ⟨⟨4, 0⟩, 0⟩)] 7 "10.0.0.1"
      ⟨⟨4, 0⟩, 0⟩ ⟨2, 4, true⟩).2.1 rfl⟩

/-- **C10.** With rate limiting enabled, a request whose
`RemoteAddr` cannot be split into host and port is answered by
`serverErrorResponse` (500): the registry is left untouched (no entry
created or consulted) and the next handler does not run. -/
theorem rateLimit_malformed_remoteAddr
    (cfg : LimiterConfig) (now : ℚ) (clients : Registry)
    (hen : cfg.enabled = true) :
    rateLimitStep cfg none now clients =
      ({ errorResponse := some .serverError, nextCalled := false }, clients) ∧
    ErrResponse.status .serverError = 500 := by
  refine ⟨?_, rfl⟩
  unfold rateLimitStep
  simp [hen]

/-- Witness for `rateLimit_malformed_remoteAddr` at a concrete enabled
configuration and non-empty registry. -/
theorem rateLimit_malformed_remoteAddr_witness :
    rateLimitStep ⟨2, 4, true⟩ none 3 [("10.0.0.1", ⟨⟨4, 0⟩, 0⟩)] =
      ({ errorResponse := some .serverError, nextCalled := false },
        [("10.0.0.1", ⟨⟨4, 0⟩, 0⟩)]) :=
  (rateLimit_malformed_remoteAddr ⟨2, 4, true⟩ 3 [("10.0.0.1", ⟨⟨4, 0⟩, 0⟩)] rfl).1

/-! ## Theorems: panic recovery and background tasks -/

/-- **C8.** When the wrapped handler panics, `recoverPanic` produces
exactly one write — status 500 with the fixed generic
`serverErrorMessage` body, whatever the panic details were — sets the
`Connection: close` header, logs the panic details server-side, and
the panic does not crash the process.  (A run that completes normally
adds nothing.) -/
theorem recoverPanic_converts_panic_to_500 (details : String) :
    (recoverPanic (.panics details) ResponseState.initial).1.writes
      = [(500, serverErrorMessage)] ∧
    (recoverPanic (.panics details) ResponseState.initial).1.headers
      = [("Connection", "close")] ∧
    (recoverPanic (.panics details) ResponseState.initial).1.logged = [details] ∧
    (recoverPanic (.panics details) ResponseState.initial).2 = false ∧
    recoverPanic .completes ResponseState.initial = (ResponseState.initial, false) := by
  refine ⟨?_, ?_, ?_, rfl, rfl⟩ <;>
    simp [recoverPanic, serverErrorResponse, errorResponse, logError, ResponseState.initial]

/-- **C7 (refuting the claim as stated).** The welcome-email goroutine
is not registered with the shared task counter: `registerUserHandler`
performs no WaitGroup operation around the spawn, so the counter is
still zero when `serve`'s shutdown path calls `app.wg.Wait()`, and the
wait does not block for the in-flight email task. -/
theorem welcomeEmail_not_registered :
    wgCounter welcomeEmailWgOps = 0 ∧ wgWaitBlocks welcomeEmailWgOps = false := by
  constructor <;> rfl

/-! ## Theorems: token generation -/

/-- A byte contributes exactly eight bits to the stream. -/
theorem flatten_map_byteToBits_length (data : List Nat) :
    ((data.map byteToBits).flatten).length = 8 * data.length := by
  induction data with
  | nil => rfl
  | cons b rest ih =>
    simp only [List.map_cons, List.flatten_cons, List.length_append, ih,
      List.length_cons, byteToBits, List.length_nil]
    ring

/-- A bit stream of `n` bits yields `⌈n / 5⌉` base-32 groups. -/
theorem bitsToChunks_length (l : List Bool) :
    (bitsToChunks l).length = (l.length + 4) / 5 := by
  induction l using bitsToChunks.induct with
  | case1 => rfl
  | case2 b0 b1 b2 b3 b4 rest ih =>
    simp only [bitsToChunks, List.length_cons, ih]
    omega
  | case3 bits h1 h2 =>
    -- the remaining stream has between one and four bits
    rcases bits with _ | ⟨b0, _ | ⟨b1, _ | ⟨b2, _ | ⟨b3, _ | ⟨b4, rest⟩⟩⟩⟩⟩
    · exact absurd rfl h1
    · rw [show bitsToChunks [b0] = [chunkVal [b0]] from rfl]; simp
    · rw [show bitsToChunks [b0, b1] = [chunkVal [b0, b1]] from rfl]; simp
    · rw [show bitsToChunks [b0, b1, b2] = [chunkVal [b0, b1, b2]] from rfl]; simp
    · rw [show bitsToChunks [b0, b1, b2, b3] = [chunkVal [b0, b1, b2, b3]] from rfl]; simp
    · exact absurd rfl (h2 b0 b1 b2 b3 b4 rest)

/-- Every character the encoder can emit is a one-byte (ASCII)
character, whatever the group value. -/
theorem base32_char_utf8Size (n : Nat) :
    (base32StdAlphabet.getD n 'A').utf8Size = 1 := by
  rcases Nat.lt_or_ge n 32 with h | h
  · interval_cases n <;> decide
  · rw [List.getD_eq_default]
    · decide
    · simpa [base32StdAlphabet] using h

/-- The byte size of a string all of whose characters are one-byte
characters is its character count. -/
theorem utf8ByteSize_of_ascii (cs : List Char) (h : ∀ c ∈ cs, c.utf8Size = 1) :
    (String.mk cs).utf8ByteSize = cs.length := by
  induction cs with
  | nil => rfl
  | cons c rest ih =>
    have hc : c.utf8Size = 1 := h c (by simp)
    have hrest : String.utf8ByteSize.go rest = rest.length :=
      ih (fun c hc => h c (by simp [hc]))
    show String.utf8ByteSize.go (c :: rest) = (c :: rest).length
    rw [show String.utf8ByteSize.go (c :: rest) =
        String.utf8ByteSize.go rest + c.utf8Size from rfl, hrest, hc, List.length_cons]

/-- The base-32 encoding of `n` bytes is an ASCII string of
`⌈8n / 5⌉` characters, and its Go byte length equals its character
count. -/
theorem base32EncodeNoPadding_length (data : List Nat) :
    (base32EncodeNoPadding data).length = (8 * data.length + 4) / 5 ∧
    goLen (base32EncodeNoPadding data) = (8 * data.length + 4) / 5 := by
  have hchars :
      ((bitsToChunks (data.map byteToBits).flatten).map
        (fun n => base32StdAlphabet.getD n 'A')).length = (8 * data.length + 4) / 5 := by
    rw [List.length_map, bitsToChunks_length, flatten_map_byteToBits_length]
  constructor
  · show ((bitsToChunks (data.map byteToBits).flatten).map
      (fun n => base32StdAlphabet.getD n 'A')).length = _
    exact hchars
  · show (String.mk _).utf8ByteSize = _
    rw [utf8ByteSize_of_ascii _ ?_, hchars]
    intro c hc
    obtain ⟨n, -, rfl⟩ := List.mem_map.mp hc
    exact base32_char_utf8Size n

/-- **C9.** For every successful `generateToken` run on 16 random
bytes: the `Plaintext` field is the unpadded base-32 encoding of those
bytes and is exactly 26 characters (and 26 Go bytes) long, so it
passes `ValidateTokenPlaintext`; the `Hash` field is the digest of the
plaintext under the hash function (which, like `crypto/sha256`, emits
32-byte digests); and `TokenModel.Insert` binds hash, user ID, expiry
and scope — the plaintext never appears among the insert arguments,
whatever its value. -/
theorem generateToken_contract
    (hashFn : String → List Nat) (now ttl : ℚ) (userID : Int) (scope : String)
    (randomBytes : List Nat)
    (hlen : randomBytes.length = 16)
    (hhash : ∀ s, (hashFn s).length = 32) :
    ∃ t, generateToken hashFn now userID ttl scope (some randomBytes) = some t ∧
      t.plaintext = base32EncodeNoPadding randomBytes ∧
      t.plaintext.length = 26 ∧
      goLen t.plaintext = 26 ∧
      (ValidateTokenPlaintext Validator.new t.plaintext).valid = true ∧
      t.hash = hashFn t.plaintext ∧
      t.hash.length = 32 ∧
      t.expiry = now + ttl ∧
      SQLValue.bytes t.hash ∈ insertTokenArgs t ∧
      (∀ p, insertTokenArgs { t with plaintext := p } = insertTokenArgs t) := by
  refine ⟨_, rfl, rfl, ?_, ?_, ?_, rfl, hhash _, rfl, by simp [insertTokenArgs], fun p => rfl⟩
  · rw [(base32EncodeNoPadding_length randomBytes).1, hlen]
  · rw [(base32EncodeNoPadding_length randomBytes).2, hlen]
  · rw [validateTokenPlaintext_valid]
    have hg : goLen (base32EncodeNoPadding randomBytes) = 26 := by
      rw [(base32EncodeNoPadding_length randomBytes).2, hlen]
    have hne : base32EncodeNoPadding randomBytes ≠ "" := by
      intro h
      rw [h] at hg
      exact absurd hg (by decide)
    simp [hne, hg]

/-- Witness for `generateToken_contract` on the all-zero 16-byte
input with an all-zero 32-byte digest function. -/
theorem generateToken_contract_witness :
    (List.replicate 16 0).length = 16 ∧
    (∀ s : String, ((fun _ => List.replicate 32 0) s).length = 32) ∧
    ∃ t, generateToken (fun _ => List.replicate 32 0) 0 1 86400 ScopeAuthentication
        (some (List.replicate 16 0)) = some t ∧
      t.plaintext = base32EncodeNoPadding (List.replicate 16 0) ∧
      t.plaintext.length = 26 ∧
      goLen t.plaintext = 26 ∧
      (ValidateTokenPlaintext Validator.new t.plaintext).valid = true ∧
      t.hash = (fun _ => List.replicate 32 0) t.plaintext ∧
      t.hash.length = 32 ∧
      t.expiry = 0 + 86400 ∧
      SQLValue.bytes t.hash ∈ insertTokenArgs t ∧
      (∀ p, insertTokenArgs { t with plaintext := p } = insertTokenArgs t) :=
  ⟨by simp, fun _ => by simp,
    generateToken_contract (fun _ => List.replicate 32 0) 0 86400 1 ScopeAuthentication
      (List.replicate 16 0) (by simp) (fun _ => by simp)⟩

end Skel
